import Mathlib

/-!
Verification of the core session/billing/geofence logic of the Lumo bike-share
app.  The embedding models:

* `isInsideGeofence` from `components/geofence-map.tsx` (ray-casting
  point-in-polygon over the configured service-area polygon);
* the session state machine of `app/(tabs)/index.tsx` — the `connect`,
  `sendCommand`, `completeRideEnd`, `handleBuyTurbo` handlers, the
  `onDeviceDisconnected` callback, and the two `useEffect` blocks that react to
  `bikeState` (the 1-second ride timer/cost simulator and the ride-reset
  effect).

Numbers (cost, distance, battery, coordinates) are modelled as exact rationals;
the JavaScript source uses IEEE doubles, whose rounding is not modelled.
React state updates are modelled as atomic events on an explicit record; the
effects that fire on a `bikeState` change are folded into `setBikeState`.
-/

namespace Lumo

/-- A latitude/longitude pair, mirroring `Coordinate` in `types/map.ts`. -/
structure Coordinate where
  latitude : ℚ
  longitude : ℚ
deriving DecidableEq, Repr

/-- The configured service-area boundary `geofencePolygon` from
`components/geofence-map.tsx` (OSU campus, five vertices). -/
def geofencePolygon : List Coordinate :=
  [ ⟨445700/10000, -1232820/10000⟩,
    ⟨445700/10000, -1232680/10000⟩,
    ⟨445600/10000, -1232680/10000⟩,
    ⟨445580/10000, -1232750/10000⟩,
    ⟨445600/10000, -1232820/10000⟩ ]

/-- The last element of `x :: xs`. -/
def lastOf (x : Coordinate) : List Coordinate → Coordinate
  | [] => x
  | y :: ys => lastOf y ys

/-- Pairs every vertex with the preceding one (wrapping around), matching the
`j = i - 1 mod n` indexing of the loop in `isInsideGeofence`. -/
def withPrev : List Coordinate → List (Coordinate × Coordinate)
  | [] => []
  | x :: xs => (x :: xs).zip (lastOf x xs :: (x :: xs).dropLast)

/-- One iteration of the loop body of `isInsideGeofence`: does the edge between
`e.1` (index `i`) and `e.2` (index `j`) toggle the parity flag for the query
point `(lat, lng)`?  Mirrors
`((yi > lng) !== (yj > lng)) && (lat < (xj - xi) * (lng - yi) / (yj - yi) + xi)`.
The JavaScript `&&` short-circuits, so the division is only reached when the
longitudes straddle `lng` and hence `yj - yi` is nonzero; rational division
by zero (which Lean makes 0) is therefore never relevant. -/
def edgeToggles (lat lng : ℚ) (e : Coordinate × Coordinate) : Bool :=
  (decide (e.1.longitude > lng) != decide (e.2.longitude > lng)) &&
    decide (lat < (e.2.latitude - e.1.latitude) * (lng - e.1.longitude) /
      (e.2.longitude - e.1.longitude) + e.1.latitude)

/-- The ray-casting loop of `isInsideGeofence` in `components/geofence-map.tsx`,
generalised over the vertex list (the source closes over `geofencePolygon`). -/
def raycastInside (poly : List Coordinate) (lat lng : ℚ) : Bool :=
  (withPrev poly).foldl
    (fun inside e => if edgeToggles lat lng e then !inside else inside) false

/-- `isInsideGeofence(lat, lng)` from `components/geofence-map.tsx`: the
ray-casting loop applied to the configured polygon. -/
def isInsideGeofence (lat lng : ℚ) : Bool :=
  raycastInside geofencePolygon lat lng

/-- The bike lifecycle states of `type BikeState` in `app/(tabs)/index.tsx`. -/
inductive BikeState
  | INACTIVE
  | ACTIVATED
  | RIDING
deriving DecidableEq, Repr

/-- The `connectionState` values of `app/(tabs)/index.tsx`. -/
inductive ConnState
  | disconnected
  | connecting
  | connected
deriving DecidableEq, Repr

/-- The four logical commands; the source passes their single-letter codes as
strings to `sendCommand`. -/
inductive Cmd
  | activate
  | start
  | stop
  | deactivate
deriving DecidableEq, Repr

/-- The character written to the BLE characteristic for each command. -/
def Cmd.code : Cmd → Char
  | .activate => 'A'
  | .start => 'S'
  | .stop => 'T'
  | .deactivate => 'D'

/-- The `switch (command)` table at the end of `sendCommand`: the bike state
entered when the command is acknowledged. -/
def Cmd.target : Cmd → BikeState
  | .activate => .ACTIVATED
  | .start => .RIDING
  | .stop => .ACTIVATED
  | .deactivate => .INACTIVE

/-- The `rideSummaryData` snapshot `{duration, distance, cost}`. -/
structure RideSummary where
  duration : ℕ
  distance : ℚ
  cost : ℚ
deriving DecidableEq, Repr

/-- The React state of `HomeScreen` that the core claims are about.
`connectedDevice` abbreviates `connectedDevice !== null` (device identity is
irrelevant to the claims); `sentLog` records every command actually written to
the BLE transport (`writeCharacteristicWithResponseForDevice`). -/
structure AppState where
  connectionState : ConnState
  connectedDevice : Bool
  isDevMode : Bool
  bikeState : BikeState
  rideTime : ℕ
  rideCost : ℚ
  distance : ℚ
  batteryLevel : ℚ
  turboActive : Bool
  turboPurchased : Bool
  rideSummaryData : Option RideSummary
  sentLog : List Cmd
deriving DecidableEq, Repr

/-- `unlockCost` in the ride timer effect. -/
def unlockCost : ℚ := 1

/-- `perMinuteRate = 0.15` in the ride timer effect. -/
def perMinuteRate : ℚ := 15/100

/-- `turboCost = 1.0` (the `$1` turbo fee). -/
def turboCost : ℚ := 1

/-- the per-second distance increment `0.00278` miles. -/
def distancePerSecond : ℚ := 278/100000

/-- the per-second battery drain `0.05` percent. -/
def batteryDrainPerSecond : ℚ := 5/100

/-- the initial battery level `85`. -/
def initialBattery : ℚ := 85

/-- `Math.max(0, x)` as used for the battery floor, written with an explicit
comparison so that concrete states evaluate inside the kernel; `floorZero_eq_max`
identifies it with `max 0 x`. -/
def floorZero (x : ℚ) : ℚ := if x < 0 then 0 else x

theorem floorZero_eq_max (x : ℚ) : floorZero x = max 0 x := by
  unfold floorZero
  rcases lt_or_le x 0 with h | h
  · simp [h, max_eq_left h.le]
  · simp [not_lt.mpr h, max_eq_right h]

/-- `setBikeState`, together with the two `useEffect` blocks that depend on
`bikeState` (`index.tsx` lines 154-194): whenever the state changes to a
value other than `RIDING`, the ride-timer effect's else-branch zeroes
`rideTime`, `rideCost` and `distance` and clears both turbo flags; whenever it
changes to `RIDING`, the ride-reset effect clears `rideSummaryData` and both
turbo flags.  React skips re-rendering (and hence the effects) when the new
value equals the old one. -/
def setBikeState (s : AppState) (b : BikeState) : AppState :=
  if s.bikeState = b then s
  else if b = .RIDING then
    { s with bikeState := b, rideSummaryData := none,
             turboActive := false, turboPurchased := false }
  else
    { s with bikeState := b, rideTime := 0, rideCost := 0, distance := 0,
             turboActive := false, turboPurchased := false }

/-- One firing of the 1-second interval installed by the ride-timer effect
(`index.tsx` lines 154-183).  The interval exists only while `bikeState` is
`RIDING`; each firing increments the timer, recomputes the cost from the
elapsed time and the turbo flag, accumulates the fixed distance increment and
drains the battery, floored at zero. -/
def tick (s : AppState) : AppState :=
  if s.bikeState = .RIDING then
    { s with
      rideTime := s.rideTime + 1,
      rideCost := unlockCost + (((s.rideTime + 1 : ℕ) : ℚ) / 60) * perMinuteRate +
        (if s.turboPurchased then turboCost else 0),
      distance := s.distance + distancePerSecond,
      batteryLevel := floorZero (s.batteryLevel - batteryDrainPerSecond) }
  else s

/-- How a `sendCommand` invocation ends: acknowledged, rejected locally with
the `Not connected` error, or failed in the transport write. -/
inductive SendOutcome
  | ok
  | notConnectedErr
  | writeFailedErr
deriving DecidableEq, Repr

/-- `sendCommand` (`index.tsx` lines 398-442).  In dev mode the command is
only simulated (nothing is written to the transport) and always succeeds.
Otherwise, with no connected device or a connection state other than
`connected`, it throws `Not connected` before touching the transport; else the
write is issued (recorded in `sentLog`), `writeOk` saying whether the
transport acknowledged it.  The bike state is updated only after a successful
send. -/
def sendCommand (s : AppState) (c : Cmd) (writeOk : Bool) : AppState × SendOutcome :=
  if s.isDevMode then
    (setBikeState s c.target, .ok)
  else if s.connectedDevice = false ∨ s.connectionState ≠ .connected then
    (s, .notConnectedErr)
  else
    let s1 := { s with sentLog := s.sentLog ++ [c] }
    if writeOk then (setBikeState s1 c.target, .ok)
    else (s1, .writeFailedErr)

/-- `completeRideEnd` (`index.tsx` lines 528-570).  Sends Stop then
Deactivate; on success it snapshots the ride summary from the values captured
by the handler's closure (the state at invocation), disconnects and resets the
session.  If either send throws, the `catch` block only alerts the user — no
disconnect and no reset happen — and the returned flag reports the failure. -/
def completeRideEnd (s : AppState) (stopOk deactOk : Bool) : AppState × Bool :=
  let r1 := sendCommand s .stop stopOk
  if r1.2 ≠ .ok then (r1.1, false)
  else
    let r2 := sendCommand r1.1 .deactivate deactOk
    if r2.2 ≠ .ok then (r2.1, false)
    else
      let s2 := { r2.1 with rideSummaryData := some ⟨s.rideTime, s.distance, s.rideCost⟩ }
      let s2b := { s2 with connectedDevice := false,
                           connectionState := ConnState.disconnected,
                           isDevMode := false }
      let s3 := setBikeState s2b .INACTIVE
      ({ s3 with batteryLevel := initialBattery,
                 turboActive := false, turboPurchased := false }, true)

/-- `handleBuyTurbo` (`index.tsx` lines 640-657): a no-op when the turbo is
already active; otherwise adds the fixed $1 surcharge, marks the add-on
purchased and active, and (defensively, outside a ride) forces the bike state
to `ACTIVATED`. -/
def handleBuyTurbo (s : AppState) : AppState :=
  if s.turboActive then s
  else
    let s1 := { s with rideCost := s.rideCost + turboCost,
                       turboPurchased := true, turboActive := true }
    if s1.bikeState ≠ .RIDING then setBikeState s1 .ACTIVATED else s1

/-- The `onDeviceDisconnected` callback registered after a successful real
connection (`index.tsx` lines 341-358): the link dropped, so the session is
forced back to disconnected/inactive (no auto-reconnect). -/
def onDeviceDisconnected (s : AppState) : AppState :=
  setBikeState { s with connectionState := .disconnected,
                        connectedDevice := false } .INACTIVE

/-- `connect` on the dev-bike entry (`index.tsx` lines 260-301): the simulated
connection always succeeds, then the auto-start chain sends Activate and Start
through the dev-mode branch of `sendCommand` (simulated, never failing,
nothing written to the transport). -/
def connectDev (s : AppState) : AppState :=
  let s1 := { s with connectionState := .connected, connectedDevice := true,
                     isDevMode := true }
  let s2 := (sendCommand s1 .activate true).1
  (sendCommand s2 .start true).1

/-- `connect` on a real device (`index.tsx` lines 303-396).  `connectOk`
abstracts whether `connectToDevice` succeeds within its timeout; `actOk` and
`startOk` whether the two auto-chain writes are acknowledged.  On connect
failure the `catch` resets to disconnected; a failed auto-chain send is only
logged, leaving the state as the failed `sendCommand` left it. -/
def connectReal (s : AppState) (connectOk actOk startOk : Bool) : AppState :=
  let s0 := { s with connectionState := ConnState.connecting, isDevMode := false }
  if connectOk then
    let s1 := { s0 with connectionState := .connected, connectedDevice := true }
    let r1 := sendCommand s1 .activate actOk
    if r1.2 = .ok then (sendCommand r1.1 .start startOk).1 else r1.1
  else
    { s0 with connectionState := .disconnected, connectedDevice := false }

/-- The user/system events that drive the session.  Guards in `step` reflect
where the source can fire each handler: the bike selector (hence `connect`) is
reachable only outside a ride, the interval exists only while `RIDING`, the
turbo and END RIDE buttons exist only on the riding screen, and
`onDeviceDisconnected` is registered only for real (non-dev) devices. -/
inductive Event
  | connectDev
  | connectReal (connectOk actOk startOk : Bool)
  | tick
  | buyTurbo
  | endRide (stopOk deactOk : Bool)
  | linkLost
deriving DecidableEq, Repr

/-- One event applied to the session state. -/
def step (s : AppState) : Event → AppState
  | .connectDev => if s.bikeState = .RIDING then s else connectDev s
  | .connectReal c a st => if s.bikeState = .RIDING then s else connectReal s c a st
  | .tick => tick s
  | .buyTurbo => if s.bikeState = .RIDING then handleBuyTurbo s else s
  | .endRide stopOk deactOk =>
      if s.bikeState = .RIDING then (completeRideEnd s stopOk deactOk).1 else s
  | .linkLost =>
      if s.connectedDevice && !s.isDevMode then onDeviceDisconnected s else s

/-- The state of `HomeScreen` when it mounts. -/
def initState : AppState :=
  { connectionState := .disconnected, connectedDevice := false, isDevMode := false,
    bikeState := .INACTIVE, rideTime := 0, rideCost := 0, distance := 0,
    batteryLevel := initialBattery, turboActive := false, turboPurchased := false,
    rideSummaryData := none, sentLog := [] }

/-- Runs a list of events from the mount state. -/
def runTrace (tr : List Event) : AppState :=
  tr.foldl step initState

/-- Applies `n` timer ticks. -/
def ticks (s : AppState) : ℕ → AppState
  | 0 => s
  | n + 1 => tick (ticks s n)

/-! ### Frame lemmas -/

theorem setBikeState_bikeState (s : AppState) (b : BikeState) :
    (setBikeState s b).bikeState = b := by
  unfold setBikeState
  by_cases h : s.bikeState = b
  · rw [if_pos h]
    exact h
  · rw [if_neg h]
    by_cases hb : b = BikeState.RIDING
    · rw [if_pos hb]
    · rw [if_neg hb]

theorem tick_bikeState (s : AppState) : (tick s).bikeState = s.bikeState := by
  unfold tick; split <;> rfl

theorem tick_connectionState (s : AppState) :
    (tick s).connectionState = s.connectionState := by
  unfold tick; split <;> rfl

theorem tick_connectedDevice (s : AppState) :
    (tick s).connectedDevice = s.connectedDevice := by
  unfold tick; split <;> rfl

theorem tick_isDevMode (s : AppState) : (tick s).isDevMode = s.isDevMode := by
  unfold tick; split <;> rfl

theorem tick_turboActive (s : AppState) : (tick s).turboActive = s.turboActive := by
  unfold tick; split <;> rfl

theorem tick_turboPurchased (s : AppState) :
    (tick s).turboPurchased = s.turboPurchased := by
  unfold tick; split <;> rfl

theorem tick_rideSummaryData (s : AppState) :
    (tick s).rideSummaryData = s.rideSummaryData := by
  unfold tick; split <;> rfl

theorem tick_sentLog (s : AppState) : (tick s).sentLog = s.sentLog := by
  unfold tick; split <;> rfl

theorem ticks_bikeState (s : AppState) (n : ℕ) :
    (ticks s n).bikeState = s.bikeState := by
  induction n with
  | zero => rfl
  | succ n ih => rw [ticks, tick_bikeState, ih]

theorem ticks_connectionState (s : AppState) (n : ℕ) :
    (ticks s n).connectionState = s.connectionState := by
  induction n with
  | zero => rfl
  | succ n ih => rw [ticks, tick_connectionState, ih]

theorem ticks_connectedDevice (s : AppState) (n : ℕ) :
    (ticks s n).connectedDevice = s.connectedDevice := by
  induction n with
  | zero => rfl
  | succ n ih => rw [ticks, tick_connectedDevice, ih]

theorem ticks_isDevMode (s : AppState) (n : ℕ) :
    (ticks s n).isDevMode = s.isDevMode := by
  induction n with
  | zero => rfl
  | succ n ih => rw [ticks, tick_isDevMode, ih]

theorem ticks_turboActive (s : AppState) (n : ℕ) :
    (ticks s n).turboActive = s.turboActive := by
  induction n with
  | zero => rfl
  | succ n ih => rw [ticks, tick_turboActive, ih]

theorem ticks_turboPurchased (s : AppState) (n : ℕ) :
    (ticks s n).turboPurchased = s.turboPurchased := by
  induction n with
  | zero => rfl
  | succ n ih => rw [ticks, tick_turboPurchased, ih]

theorem ticks_rideSummaryData (s : AppState) (n : ℕ) :
    (ticks s n).rideSummaryData = s.rideSummaryData := by
  induction n with
  | zero => rfl
  | succ n ih => rw [ticks, tick_rideSummaryData, ih]

theorem ticks_sentLog (s : AppState) (n : ℕ) :
    (ticks s n).sentLog = s.sentLog := by
  induction n with
  | zero => rfl
  | succ n ih => rw [ticks, tick_sentLog, ih]

theorem setBikeState_self (s : AppState) (b : BikeState) (h : s.bikeState = b) :
    setBikeState s b = s := by
  unfold setBikeState
  rw [if_pos h]

theorem setBikeState_of_ne_nonriding (s : AppState) (b : BikeState)
    (hne : s.bikeState ≠ b) (hb : b ≠ .RIDING) :
    setBikeState s b =
      { s with bikeState := b, rideTime := 0, rideCost := 0, distance := 0,
               turboActive := false, turboPurchased := false } := by
  unfold setBikeState
  rw [if_neg hne, if_neg hb]

theorem setBikeState_of_ne_riding (s : AppState)
    (hne : s.bikeState ≠ BikeState.RIDING) :
    setBikeState s BikeState.RIDING =
      { s with bikeState := BikeState.RIDING, rideSummaryData := none,
               turboActive := false, turboPurchased := false } := by
  unfold setBikeState
  rw [if_neg hne, if_pos rfl]

theorem setBikeState_batteryLevel (s : AppState) (b : BikeState) :
    (setBikeState s b).batteryLevel = s.batteryLevel := by
  unfold setBikeState
  split
  · rfl
  · split <;> rfl

theorem setBikeState_connectionState (s : AppState) (b : BikeState) :
    (setBikeState s b).connectionState = s.connectionState := by
  unfold setBikeState
  split
  · rfl
  · split <;> rfl

theorem setBikeState_isDevMode (s : AppState) (b : BikeState) :
    (setBikeState s b).isDevMode = s.isDevMode := by
  unfold setBikeState
  split
  · rfl
  · split <;> rfl

theorem setBikeState_connectedDevice (s : AppState) (b : BikeState) :
    (setBikeState s b).connectedDevice = s.connectedDevice := by
  unfold setBikeState
  split
  · rfl
  · split <;> rfl

theorem setBikeState_sentLog (s : AppState) (b : BikeState) :
    (setBikeState s b).sentLog = s.sentLog := by
  unfold setBikeState
  split
  · rfl
  · split <;> rfl

theorem sendCommand_batteryLevel (s : AppState) (c : Cmd) (w : Bool) :
    (sendCommand s c w).1.batteryLevel = s.batteryLevel := by
  unfold sendCommand
  split
  · exact setBikeState_batteryLevel _ _
  · split
    · rfl
    · split
      · exact setBikeState_batteryLevel _ _
      · rfl

/-- A canonical session start: connecting to a real bike with the connection
and both auto-chain writes succeeding. -/
def startRide : List Event := [Event.connectReal true true true]

theorem connectReal_from_inactive (s : AppState)
    (h : s.bikeState = BikeState.INACTIVE) :
    connectReal s true true true =
      { s with connectionState := ConnState.connected, connectedDevice := true,
               isDevMode := false, bikeState := BikeState.RIDING,
               rideTime := 0, rideCost := 0, distance := 0,
               turboActive := false, turboPurchased := false,
               rideSummaryData := none,
               sentLog := s.sentLog ++ [Cmd.activate, Cmd.start] } := by
  simp [connectReal, sendCommand, setBikeState, Cmd.target, h]

/-! ### The telemetry values produced by a run of ticks in a riding span -/

theorem tick_of_riding (s : AppState) (h : s.bikeState = .RIDING) :
    tick s = { s with
      rideTime := s.rideTime + 1,
      rideCost := unlockCost + (((s.rideTime + 1 : ℕ) : ℚ) / 60) * perMinuteRate +
        (if s.turboPurchased then turboCost else 0),
      distance := s.distance + distancePerSecond,
      batteryLevel := floorZero (s.batteryLevel - batteryDrainPerSecond) } := by
  unfold tick
  rw [if_pos h]

theorem ticks_rideTime (s : AppState) (h : s.bikeState = .RIDING) (n : ℕ) :
    (ticks s n).rideTime = s.rideTime + n := by
  induction n with
  | zero => rfl
  | succ n ih =>
      have hr : (ticks s n).bikeState = .RIDING := by rw [ticks_bikeState, h]
      rw [ticks, tick_of_riding _ hr]
      simp [ih]
      omega

theorem ticks_distance (s : AppState) (h : s.bikeState = .RIDING) (n : ℕ) :
    (ticks s n).distance = s.distance + n * distancePerSecond := by
  induction n with
  | zero => simp [ticks]
  | succ n ih =>
      have hr : (ticks s n).bikeState = .RIDING := by rw [ticks_bikeState, h]
      rw [ticks, tick_of_riding _ hr]
      simp only [ih]
      push_cast
      ring

theorem ticks_rideCost (s : AppState) (h : s.bikeState = .RIDING) (n : ℕ)
    (hn : 1 ≤ n) :
    (ticks s n).rideCost =
      unlockCost + (((s.rideTime + n : ℕ) : ℚ) / 60) * perMinuteRate +
        (if s.turboPurchased then turboCost else 0) := by
  induction n with
  | zero => omega
  | succ n ih =>
      have hr : (ticks s n).bikeState = .RIDING := by rw [ticks_bikeState, h]
      rw [ticks, tick_of_riding _ hr]
      simp only [ticks_rideTime s h n, ticks_turboPurchased s n]
      rw [Nat.add_assoc]

theorem floorZero_shift (x d : ℚ) (hd : 0 ≤ d) :
    floorZero (floorZero x - d) = floorZero (x - d) := by
  unfold floorZero
  rcases lt_or_le x 0 with h | h
  · rw [if_pos h]
    have hxd : x - d < 0 := by linarith
    rw [if_pos hxd]
    rcases lt_or_le (0 - d : ℚ) 0 with h2 | h2
    · rw [if_pos h2]
    · have hd0 : d = 0 := by linarith
      rw [if_neg (not_lt.mpr h2), hd0]
      ring
  · rw [if_neg (not_lt.mpr h)]

theorem ticks_batteryLevel (s : AppState) (h : s.bikeState = .RIDING) (n : ℕ)
    (hn : 1 ≤ n) :
    (ticks s n).batteryLevel =
      floorZero (s.batteryLevel - n * batteryDrainPerSecond) := by
  induction n with
  | zero => omega
  | succ n ih =>
      have hr : (ticks s n).bikeState = .RIDING := by rw [ticks_bikeState, h]
      rw [ticks, tick_of_riding _ hr]
      rcases Nat.eq_zero_or_pos n with h0 | h0
      · subst h0
        simp [ticks]
      · rw [ih h0]
        simp only
        rw [floorZero_shift _ _ (by norm_num [batteryDrainPerSecond])]
        push_cast
        ring_nf

/-! ### The inductive invariant of the session state machine -/

theorem floorZero_nonneg (x : ℚ) : 0 ≤ floorZero x := by
  unfold floorZero
  rcases lt_or_le x 0 with h | h
  · rw [if_pos h]
  · rw [if_neg (not_lt.mpr h)]
    exact h

/-- The cost the ride timer writes at elapsed time `t + 1`. -/
def costAt (t : ℕ) (p : Bool) : ℚ :=
  unlockCost + (((t : ℕ) : ℚ) / 60) * perMinuteRate + (if p then turboCost else 0)

theorem costAt_nonneg (t : ℕ) (p : Bool) : 0 ≤ costAt t p := by
  unfold costAt unlockCost perMinuteRate turboCost
  cases p <;> simp <;> positivity

theorem costAt_mono (t u : ℕ) (p : Bool) (h : t ≤ u) : costAt t p ≤ costAt u p := by
  unfold costAt
  have hc : ((t : ℕ) : ℚ) ≤ ((u : ℕ) : ℚ) := by exact_mod_cast h
  have hq : (((t : ℕ) : ℚ) / 60) * perMinuteRate ≤ (((u : ℕ) : ℚ) / 60) * perMinuteRate := by
    unfold perMinuteRate
    linarith
  linarith

/-- States the state machine actually produces: the battery is never negative;
outside a ride the telemetry accumulators and turbo flags sit at their base
values; during a ride a purchased turbo is also active and the accumulated
cost never exceeds what the next timer tick will write. -/
def GoodState (s : AppState) : Prop :=
  0 ≤ s.batteryLevel ∧
  (s.bikeState ≠ .RIDING →
    s.rideTime = 0 ∧ s.rideCost = 0 ∧ s.distance = 0 ∧
    s.turboActive = false ∧ s.turboPurchased = false) ∧
  (s.bikeState = .RIDING →
    (s.turboPurchased = true → s.turboActive = true) ∧
    s.rideCost ≤ costAt (s.rideTime + 1) s.turboPurchased)

theorem good_initState : GoodState initState := by
  refine ⟨by norm_num [initState, initialBattery], fun _ => ⟨rfl, rfl, rfl, rfl, rfl⟩, fun h => ?_⟩
  cases h

theorem good_setBikeState (s : AppState) (b : BikeState) (hs : GoodState s) :
    GoodState (setBikeState s b) := by
  obtain ⟨h1, h2, h3⟩ := hs
  unfold setBikeState
  by_cases heq : s.bikeState = b
  · rw [if_pos heq]
    exact ⟨h1, h2, h3⟩
  · rw [if_neg heq]
    by_cases hb : b = BikeState.RIDING
    · rw [if_pos hb]
      subst hb
      have hz := h2 (fun hc => heq hc)
      refine ⟨h1, fun hc => absurd rfl hc, fun _ => ⟨?_, ?_⟩⟩
      · intro hp
        simp at hp
      · simp only
        rw [hz.2.1]
        exact costAt_nonneg _ _
    · rw [if_neg hb]
      refine ⟨h1, fun _ => ⟨rfl, rfl, rfl, rfl, rfl⟩, fun hc => absurd hc hb⟩

theorem good_tick (s : AppState) (hs : GoodState s) : GoodState (tick s) := by
  obtain ⟨h1, h2, h3⟩ := hs
  unfold tick
  by_cases hr : s.bikeState = BikeState.RIDING
  · rw [if_pos hr]
    obtain ⟨hpa, _⟩ := h3 hr
    refine ⟨floorZero_nonneg _, fun hc => absurd hr hc, fun _ => ⟨hpa, ?_⟩⟩
    simp only
    exact costAt_mono _ _ _ (by omega)
  · rw [if_neg hr]
    exact ⟨h1, h2, h3⟩

theorem good_log_update (s : AppState) (l : List Cmd) (hs : GoodState s) :
    GoodState { s with sentLog := l } := hs

theorem good_sendCommand (s : AppState) (c : Cmd) (w : Bool) (hs : GoodState s) :
    GoodState (sendCommand s c w).1 := by
  unfold sendCommand
  by_cases hdev : s.isDevMode
  · simp only [if_pos hdev]
    exact good_setBikeState _ _ hs
  · simp only [if_neg hdev]
    by_cases hnc : s.connectedDevice = false ∨ s.connectionState ≠ ConnState.connected
    · rw [if_pos hnc]
      exact hs
    · rw [if_neg hnc]
      cases w
      · exact good_log_update _ _ hs
      · exact good_setBikeState _ _ (good_log_update _ _ hs)

theorem costAt_true (t : ℕ) : costAt t true = costAt t false + turboCost := by
  unfold costAt
  norm_num

theorem good_handleBuyTurbo (s : AppState) (hr : s.bikeState = BikeState.RIDING)
    (hs : GoodState s) : GoodState (handleBuyTurbo s) := by
  obtain ⟨h1, h2, h3⟩ := hs
  unfold handleBuyTurbo
  by_cases ha : s.turboActive
  · rw [if_pos ha]
    exact ⟨h1, h2, h3⟩
  · rw [if_neg ha]
    simp only
    split
    · next hcond => exact absurd hr (by simpa using hcond)
    · next hcond =>
        refine ⟨h1, fun hc => absurd hr (by simpa using hc), fun _ => ⟨fun _ => rfl, ?_⟩⟩
        have hp : s.turboPurchased = false := by
          cases hpv : s.turboPurchased
          · rfl
          · exact absurd ((h3 hr).1 hpv) (by simpa using ha)
        have hb := (h3 hr).2
        rw [hp] at hb
        simp only
        rw [costAt_true]
        exact add_le_add_right hb _

theorem good_onDeviceDisconnected (s : AppState) (hs : GoodState s) :
    GoodState (onDeviceDisconnected s) :=
  good_setBikeState _ _ hs

theorem good_completeRideEnd (s : AppState) (stopOk deactOk : Bool)
    (hs : GoodState s) : GoodState (completeRideEnd s stopOk deactOk).1 := by
  unfold completeRideEnd
  simp only
  split
  · exact good_sendCommand _ _ _ hs
  · split
    · exact good_sendCommand _ _ _ (good_sendCommand _ _ _ hs)
    · have hg2 : GoodState (sendCommand (sendCommand s .stop stopOk).1 .deactivate deactOk).1 :=
        good_sendCommand _ _ _ (good_sendCommand _ _ _ hs)
      have hg3 : GoodState (setBikeState
          { (sendCommand (sendCommand s .stop stopOk).1 .deactivate deactOk).1 with
            rideSummaryData := some ⟨s.rideTime, s.distance, s.rideCost⟩,
            connectedDevice := false, connectionState := ConnState.disconnected,
            isDevMode := false } BikeState.INACTIVE) :=
        good_setBikeState _ _ hg2
      have hbs := setBikeState_bikeState
          { (sendCommand (sendCommand s .stop stopOk).1 .deactivate deactOk).1 with
            rideSummaryData := some ⟨s.rideTime, s.distance, s.rideCost⟩,
            connectedDevice := false, connectionState := ConnState.disconnected,
            isDevMode := false } BikeState.INACTIVE
      obtain ⟨ht, hc, hd, _, _⟩ := hg3.2.1 (by rw [hbs]; simp)
      refine ⟨by norm_num [initialBattery], fun _ => ⟨ht, hc, hd, rfl, rfl⟩, fun hcon => ?_⟩
      rw [show ({ setBikeState
          { (sendCommand (sendCommand s .stop stopOk).1 .deactivate deactOk).1 with
            rideSummaryData := some ⟨s.rideTime, s.distance, s.rideCost⟩,
            connectedDevice := false, connectionState := ConnState.disconnected,
            isDevMode := false } BikeState.INACTIVE with
          batteryLevel := initialBattery, turboActive := false,
          turboPurchased := false } : AppState).bikeState = BikeState.INACTIVE from hbs] at hcon
      cases hcon

theorem good_connectDev (s : AppState) (hs : GoodState s) :
    GoodState (connectDev s) :=
  good_sendCommand _ _ _ (good_sendCommand _ _ _ hs)

theorem good_connectReal (s : AppState) (c a st : Bool) (hs : GoodState s) :
    GoodState (connectReal s c a st) := by
  unfold connectReal
  simp only
  split
  · split
    · exact good_sendCommand _ _ _ (good_sendCommand _ _ _ hs)
    · exact good_sendCommand _ _ _ hs
  · exact hs

theorem good_step (s : AppState) (e : Event) (hs : GoodState s) :
    GoodState (step s e) := by
  cases e with
  | connectDev =>
      simp only [step]
      split
      · exact hs
      · exact good_connectDev s hs
  | connectReal c a st =>
      simp only [step]
      split
      · exact hs
      · exact good_connectReal s c a st hs
  | tick =>
      simp only [step]
      exact good_tick s hs
  | buyTurbo =>
      simp only [step]
      split
      · next hcond => exact good_handleBuyTurbo s hcond hs
      · exact hs
  | endRide stopOk deactOk =>
      simp only [step]
      split
      · exact good_completeRideEnd s stopOk deactOk hs
      · exact hs
  | linkLost =>
      simp only [step]
      split
      · exact good_onDeviceDisconnected s hs
      · exact hs

theorem good_foldl (s : AppState) (tr : List Event) (hs : GoodState s) :
    GoodState (tr.foldl step s) := by
  induction tr generalizing s with
  | nil => exact hs
  | cons e tl ih => exact ih _ (good_step s e hs)

theorem good_runTrace (tr : List Event) : GoodState (runTrace tr) :=
  good_foldl _ _ good_initState

/-! ### Geofence: strict interior and exterior of the configured polygon

The contains test of the source closes over the one configured polygon, which
is convex (its vertices wind so that the interior lies strictly on the
positive-cross-product side of every directed edge).  The spec's notions of a
point strictly inside / strictly outside the polygon are therefore expressed
exactly: the interior is the intersection of the five open half-planes bounded
by the edge lines, and a point is strictly outside the closed region iff it
lies strictly on the opposite side of at least one edge line. -/

/-- vertex 0 of `geofencePolygon` (northwest corner). -/
def gv0 : Coordinate := ⟨445700/10000, -1232820/10000⟩

/-- vertex 1 of `geofencePolygon` (northeast corner). -/
def gv1 : Coordinate := ⟨445700/10000, -1232680/10000⟩

/-- vertex 2 of `geofencePolygon` (southeast corner). -/
def gv2 : Coordinate := ⟨445600/10000, -1232680/10000⟩

/-- vertex 3 of `geofencePolygon` (south central). -/
def gv3 : Coordinate := ⟨445580/10000, -1232750/10000⟩

/-- vertex 4 of `geofencePolygon` (southwest corner). -/
def gv4 : Coordinate := ⟨445600/10000, -1232820/10000⟩

theorem geofencePolygon_eq : geofencePolygon = [gv0, gv1, gv2, gv3, gv4] := rfl

/-- The cross product of the directed edge `a → b` with `a → (lat, lng)`:
positive iff the point lies strictly left of the directed edge line. -/
def crossSide (a b : Coordinate) (lat lng : ℚ) : ℚ :=
  (b.latitude - a.latitude) * (lng - a.longitude) -
    (b.longitude - a.longitude) * (lat - a.latitude)

/-- A point strictly inside the configured service-area polygon: strictly on
the interior side of all five edge lines (the topological interior of this
convex polygon). -/
def strictlyInside (lat lng : ℚ) : Prop :=
  0 < crossSide gv0 gv1 lat lng ∧ 0 < crossSide gv1 gv2 lat lng ∧
  0 < crossSide gv2 gv3 lat lng ∧ 0 < crossSide gv3 gv4 lat lng ∧
  0 < crossSide gv4 gv0 lat lng

/-- A point strictly outside the configured service-area polygon: strictly on
the exterior side of at least one edge line (the complement of the closed
convex region). -/
def strictlyOutside (lat lng : ℚ) : Prop :=
  crossSide gv0 gv1 lat lng < 0 ∨ crossSide gv1 gv2 lat lng < 0 ∨
  crossSide gv2 gv3 lat lng < 0 ∨ crossSide gv3 gv4 lat lng < 0 ∨
  crossSide gv4 gv0 lat lng < 0

theorem inside_geofence_true (lat lng : ℚ) (h : strictlyInside lat lng) :
    isInsideGeofence lat lng = true := by
  obtain ⟨h01, h12, h23, h34, h40⟩ := h
  norm_num [crossSide, gv0, gv1, gv2, gv3, gv4] at h01 h12 h23 h34 h40
  have hL1 : ¬ (lng < -1232820/10000) := by push_neg; linarith
  have hL3 : lng < -1232680/10000 := by linarith
  have hC1 : lat < 445700/10000 := by linarith
  by_cases hL2 : lng < -1232750/10000
  · have hC4 : ¬ (lat < (445580/10000 - 445600/10000 : ℚ) * (lng - -1232820/10000) /
        (-1232750/10000 - -1232820/10000) + 445600/10000) := by
      push_neg
      rw [show (445580/10000 - 445600/10000 : ℚ) * (lng - -1232820/10000) /
        (-1232750/10000 - -1232820/10000) + 445600/10000 =
        22279/500 - (2/7) * (lng + 4931/40) from by ring]
      linarith
    simp [isInsideGeofence, raycastInside, geofencePolygon, withPrev, lastOf,
      edgeToggles, hL1, hL2, hL3, hC1, hC4]
  · have hC3 : ¬ (lat < (445600/10000 - 445580/10000 : ℚ) * (lng - -1232750/10000) /
        (-1232680/10000 - -1232750/10000) + 445580/10000) := by
      push_neg
      rw [show (445600/10000 - 445580/10000 : ℚ) * (lng - -1232750/10000) /
        (-1232680/10000 - -1232750/10000) + 445580/10000 =
        22279/500 + (2/7) * (lng + 4931/40) from by ring]
      linarith
    simp [isInsideGeofence, raycastInside, geofencePolygon, withPrev, lastOf,
      edgeToggles, hL1, hL2, hL3, hC1, hC3]

theorem rayBound4 (lng : ℚ) :
    (445580/10000 - 445600/10000 : ℚ) * (lng - -1232820/10000) /
      (-1232750/10000 - -1232820/10000) + 445600/10000 =
    22279/500 - (2/7) * (lng + 4931/40) := by ring

theorem rayBound3 (lng : ℚ) :
    (445600/10000 - 445580/10000 : ℚ) * (lng - -1232750/10000) /
      (-1232680/10000 - -1232750/10000) + 445580/10000 =
    22279/500 + (2/7) * (lng + 4931/40) := by ring

theorem outside_geofence_false (lat lng : ℚ) (h : strictlyOutside lat lng) :
    isInsideGeofence lat lng = false := by
  norm_num [strictlyOutside, crossSide, gv0, gv1, gv2, gv3, gv4] at h
  by_cases hL1 : lng < -1232820/10000
  · have hL2 : lng < -1232750/10000 := by linarith
    have hL3 : lng < -1232680/10000 := by linarith
    simp [isInsideGeofence, raycastInside, geofencePolygon, withPrev, lastOf,
      edgeToggles, hL1, hL2, hL3]
  · by_cases hL3 : lng < -1232680/10000
    · by_cases hL2 : lng < -1232750/10000
      · -- the horizontal line meets edges 1 and 4; both ray tests must agree
        rcases h with h01 | h12 | h23 | h34 | h40
        · have hC1 : ¬ (lat < 445700/10000) := by push_neg; linarith
          have hC4 : ¬ (lat < (445580/10000 - 445600/10000 : ℚ) * (lng - -1232820/10000) /
              (-1232750/10000 - -1232820/10000) + 445600/10000) := by
            push_neg
            rw [rayBound4 lng]
            linarith
          simp [isInsideGeofence, raycastInside, geofencePolygon, withPrev, lastOf,
            edgeToggles, hL1, hL2, hL3, hC1, hC4]
        · exact absurd hL3 (by push_neg; linarith)
        · have hC1 : lat < 445700/10000 := by linarith
          have hC4 : lat < (445580/10000 - 445600/10000 : ℚ) * (lng - -1232820/10000) /
              (-1232750/10000 - -1232820/10000) + 445600/10000 := by
            rw [rayBound4 lng]
            linarith
          simp [isInsideGeofence, raycastInside, geofencePolygon, withPrev, lastOf,
            edgeToggles, hL1, hL2, hL3, hC1, hC4]
        · have hC4 : lat < (445580/10000 - 445600/10000 : ℚ) * (lng - -1232820/10000) /
              (-1232750/10000 - -1232820/10000) + 445600/10000 := by
            rw [rayBound4 lng]
            linarith
          have hC1 : lat < 445700/10000 := by
            rw [rayBound4 lng] at hC4
            push_neg at hL1
            linarith
          simp [isInsideGeofence, raycastInside, geofencePolygon, withPrev, lastOf,
            edgeToggles, hL1, hL2, hL3, hC1, hC4]
        · exact absurd hL1 (by push_neg at hL1 ⊢; linarith)
      · -- the horizontal line meets edges 1 and 3; both ray tests must agree
        rcases h with h01 | h12 | h23 | h34 | h40
        · have hC1 : ¬ (lat < 445700/10000) := by push_neg; linarith
          have hC3 : ¬ (lat < (445600/10000 - 445580/10000 : ℚ) * (lng - -1232750/10000) /
              (-1232680/10000 - -1232750/10000) + 445580/10000) := by
            push_neg
            rw [rayBound3 lng]
            linarith
          simp [isInsideGeofence, raycastInside, geofencePolygon, withPrev, lastOf,
            edgeToggles, hL1, hL2, hL3, hC1, hC3]
        · exact absurd hL3 (by push_neg; linarith)
        · have hC3 : lat < (445600/10000 - 445580/10000 : ℚ) * (lng - -1232750/10000) /
              (-1232680/10000 - -1232750/10000) + 445580/10000 := by
            rw [rayBound3 lng]
            linarith
          have hC1 : lat < 445700/10000 := by
            rw [rayBound3 lng] at hC3
            linarith
          simp [isInsideGeofence, raycastInside, geofencePolygon, withPrev, lastOf,
            edgeToggles, hL1, hL2, hL3, hC1, hC3]
        · have hC3 : lat < (445600/10000 - 445580/10000 : ℚ) * (lng - -1232750/10000) /
              (-1232680/10000 - -1232750/10000) + 445580/10000 := by
            rw [rayBound3 lng]
            push_neg at hL2
            linarith
          have hC1 : lat < 445700/10000 := by
            push_neg at hL2
            linarith
          simp [isInsideGeofence, raycastInside, geofencePolygon, withPrev, lastOf,
            edgeToggles, hL1, hL2, hL3, hC1, hC3]
        · exact absurd hL2 (by push_neg at hL2 ⊢; linarith)
    · have hL2 : ¬ (lng < -1232750/10000) := by push_neg at hL3 ⊢; linarith
      simp [isInsideGeofence, raycastInside, geofencePolygon, withPrev, lastOf,
        edgeToggles, hL1, hL2, hL3]

theorem raycast_two (a b : Coordinate) (lat lng : ℚ) :
    raycastInside [a, b] lat lng = false := by
  have hcomm : ∀ x y : Bool, (x != y) = (y != x) := by decide
  by_cases hS : a.longitude = b.longitude
  · simp [raycastInside, withPrev, lastOf, edgeToggles, hS]
  · have h1 : b.longitude - a.longitude ≠ 0 := fun h0 => hS (by linarith)
    have h2 : a.longitude - b.longitude ≠ 0 := fun h0 => hS (by linarith)
    have heq : (b.latitude - a.latitude) * (lng - a.longitude) /
          (b.longitude - a.longitude) + a.latitude =
        (a.latitude - b.latitude) * (lng - b.longitude) /
          (a.longitude - b.longitude) + b.latitude := by
      field_simp
      ring
    simp only [raycastInside, withPrev, lastOf, List.dropLast, List.zip,
      List.zipWith, List.foldl, edgeToggles, heq, hcomm]
    by_cases hT : ((decide (a.longitude > lng) != decide (b.longitude > lng)) &&
        decide (lat < (a.latitude - b.latitude) * (lng - b.longitude) /
          (a.longitude - b.longitude) + b.latitude)) = true
    · rw [if_pos hT, if_pos hT]
      rfl
    · rw [if_neg hT, if_neg hT]

/-- Degenerate vertex lists (fewer than three vertices) are classified as
outside for every query point, exactly as the source loop computes: with one
vertex the single self-edge never straddles, and with two vertices the two
opposite orientations of the same segment toggle the parity twice. -/
theorem raycast_degenerate (poly : List Coordinate) (hlen : poly.length < 3)
    (lat lng : ℚ) : raycastInside poly lat lng = false := by
  rcases poly with _ | ⟨a, _ | ⟨b, _ | ⟨c, rest⟩⟩⟩
  · rfl
  · simp [raycastInside, withPrev, lastOf, edgeToggles]
  · exact raycast_two a b lat lng
  · simp at hlen
    omega

/-! ### Concrete session states -/

theorem runTrace_startRide :
    runTrace startRide =
      { connectionState := ConnState.connected, connectedDevice := true,
        isDevMode := false, bikeState := BikeState.RIDING, rideTime := 0,
        rideCost := 0, distance := 0, batteryLevel := initialBattery,
        turboActive := false, turboPurchased := false, rideSummaryData := none,
        sentLog := [Cmd.activate, Cmd.start] } := by
  show step initState (Event.connectReal true true true) = _
  rw [show step initState (Event.connectReal true true true) =
        connectReal initState true true true from rfl,
      connectReal_from_inactive initState rfl]
  simp [initState]

/-! ### Claim theorems -/

/-- C1 (code_bug): no operation is gated on geofence membership.  From a
location strictly outside the service area — `isInsideGeofence 0 0 = false` —
connecting to a bike still writes Activate and Start to the transport and
produces a riding session; the command path never consults the geofence
evaluator (no definition in it takes a location) and no local
`GeofenceViolation` rejection exists in the source, contradicting the claim
and the repository's own map-integration documentation. -/
theorem c1_commands_sent_outside_geofence :
    isInsideGeofence 0 0 = false ∧
    (runTrace startRide).sentLog = [Cmd.activate, Cmd.start] ∧
    (runTrace startRide).bikeState = BikeState.RIDING := by
  refine ⟨?_, ?_, ?_⟩
  · norm_num [isInsideGeofence, raycastInside, geofencePolygon, withPrev, lastOf, edgeToggles]
  · rw [runTrace_startRide]
  · rw [runTrace_startRide]

/-- C9: the geofence contains test classifies every point strictly inside the
configured (three-or-more-vertex, convex) service-area polygon as inside and
every point strictly outside it as outside, via ray-casting parity over the
edges; for every degenerate vertex list with fewer than three vertices the
same loop classifies every point as outside.  (`isInsideGeofence` closes over
the one configured polygon, so the polygon quantification of the claim is
instantiated at it; `strictlyInside`/`strictlyOutside` express the strict
interior/exterior of that convex polygon as half-plane conditions.) -/
theorem c9_contains_correct (lat lng : ℚ) :
    (strictlyInside lat lng → isInsideGeofence lat lng = true) ∧
    (strictlyOutside lat lng → isInsideGeofence lat lng = false) ∧
    (∀ poly : List Coordinate, poly.length < 3 → raycastInside poly lat lng = false) :=
  ⟨inside_geofence_true lat lng, outside_geofence_false lat lng,
    fun poly hl => raycast_degenerate poly hl lat lng⟩

/-- Witness for C9 at concrete points: the campus-center point is strictly
inside and classified inside; the origin is strictly outside and classified
outside; the empty polygon classifies the center as outside. -/
theorem c9_contains_correct_witness :
    strictlyInside (445650/10000) (-1232750/10000) ∧
    isInsideGeofence (445650/10000) (-1232750/10000) = true ∧
    strictlyOutside 0 0 ∧
    isInsideGeofence 0 0 = false ∧
    raycastInside [] (445650/10000) (-1232750/10000) = false := by
  have hin : strictlyInside (445650/10000) (-1232750/10000) := by
    norm_num [strictlyInside, crossSide, gv0, gv1, gv2, gv3, gv4]
  have hout : strictlyOutside 0 0 := by
    norm_num [strictlyOutside, crossSide, gv0, gv1, gv2, gv3, gv4]
  exact ⟨hin, (c9_contains_correct _ _).1 hin, hout,
    (c9_contains_correct _ _).2.1 hout,
    (c9_contains_correct _ _).2.2 [] (by simp)⟩

/-- C10: in real (non-dev) mode `sendCommand` is atomic with respect to the
bike lifecycle: it fails with the local `Not connected` error exactly when no
device is connected or the connection state is not `connected`, and then the
whole state — including the transport log — is untouched; a transport write
failure propagates the error with only the write attempt recorded and no other
change; the bike state changes only when the write is acknowledged. -/
theorem c10_sendCommand_atomic (s : AppState) (c : Cmd) (writeOk : Bool)
    (hdev : s.isDevMode = false) :
    ((sendCommand s c writeOk).2 = SendOutcome.notConnectedErr ↔
      (s.connectedDevice = false ∨ s.connectionState ≠ ConnState.connected)) ∧
    ((sendCommand s c writeOk).2 = SendOutcome.notConnectedErr →
      (sendCommand s c writeOk).1 = s) ∧
    ((sendCommand s c writeOk).2 = SendOutcome.writeFailedErr →
      (sendCommand s c writeOk).1 = { s with sentLog := s.sentLog ++ [c] }) ∧
    ((sendCommand s c writeOk).1.bikeState ≠ s.bikeState →
      (sendCommand s c writeOk).2 = SendOutcome.ok ∧ writeOk = true) := by
  unfold sendCommand
  rw [if_neg (by simp [hdev])]
  by_cases hnc : s.connectedDevice = false ∨ s.connectionState ≠ ConnState.connected
  · rw [if_pos hnc]
    exact ⟨by simp [hnc], fun _ => rfl, fun hco => SendOutcome.noConfusion hco,
      fun hb => absurd rfl hb⟩
  · rw [if_neg hnc]
    by_cases hw : writeOk = true
    · rw [if_pos hw]
      exact ⟨by simp [hnc], fun hco => SendOutcome.noConfusion hco,
        fun hco => SendOutcome.noConfusion hco, fun _ => ⟨rfl, hw⟩⟩
    · rw [if_neg hw]
      exact ⟨by simp [hnc], fun hco => SendOutcome.noConfusion hco,
        fun _ => rfl, fun hb => absurd rfl hb⟩

/-- Witness for C10 at the mount state (no device, disconnected): the send is
rejected as `Not connected` and the state is returned unchanged. -/
theorem c10_sendCommand_atomic_witness :
    (sendCommand initState Cmd.activate true).1 = initState :=
  (c10_sendCommand_atomic initState Cmd.activate true rfl).2.1 rfl

/-! ### The three outcomes of an end-ride sequence -/

theorem sendCommand_real_fail (s : AppState) (c : Cmd) (hd : s.isDevMode = false)
    (hc : s.connectedDevice = true) (hcs : s.connectionState = ConnState.connected) :
    sendCommand s c false = ({ s with sentLog := s.sentLog ++ [c] },
      SendOutcome.writeFailedErr) := by
  unfold sendCommand
  rw [if_neg (by simp [hd]), if_neg (by simp [hc, hcs]), if_neg (by simp)]

theorem sendCommand_real_ok (s : AppState) (c : Cmd) (hd : s.isDevMode = false)
    (hc : s.connectedDevice = true) (hcs : s.connectionState = ConnState.connected) :
    sendCommand s c true =
      (setBikeState { s with sentLog := s.sentLog ++ [c] } c.target,
        SendOutcome.ok) := by
  unfold sendCommand
  rw [if_neg (by simp [hd]), if_neg (by simp [hc, hcs]), if_pos rfl]

theorem completeRideEnd_eq (s : AppState) (a b : Bool) :
    completeRideEnd s a b =
      if (sendCommand s Cmd.stop a).2 ≠ SendOutcome.ok then
        ((sendCommand s Cmd.stop a).1, false)
      else if (sendCommand (sendCommand s Cmd.stop a).1 Cmd.deactivate b).2 ≠
          SendOutcome.ok then
        ((sendCommand (sendCommand s Cmd.stop a).1 Cmd.deactivate b).1, false)
      else
        ({ setBikeState
            { (sendCommand (sendCommand s Cmd.stop a).1 Cmd.deactivate b).1 with
              rideSummaryData := some ⟨s.rideTime, s.distance, s.rideCost⟩,
              connectedDevice := false, connectionState := ConnState.disconnected,
              isDevMode := false } BikeState.INACTIVE with
           batteryLevel := initialBattery, turboActive := false,
           turboPurchased := false }, true) := rfl

/-- A failed Stop write aborts `completeRideEnd` in the `catch` block: the
state is exactly as before (plus the attempted write in the transport log) and
the failure is reported; no disconnect or reset happens. -/
theorem endRide_stopFail (s : AppState) (b : Bool) (hd : s.isDevMode = false)
    (hc : s.connectedDevice = true) (hcs : s.connectionState = ConnState.connected) :
    completeRideEnd s false b =
      ({ s with sentLog := s.sentLog ++ [Cmd.stop] }, false) := by
  rw [completeRideEnd_eq, sendCommand_real_fail s Cmd.stop hd hc hcs]
  rw [if_pos (by simp)]

/-- A failed Deactivate write aborts `completeRideEnd` after the Stop
succeeded: the bike is left `ACTIVATED` with the connection still open and the
failure is reported; no disconnect or reset happens. -/
theorem endRide_deactFail (s : AppState) (h : s.bikeState = BikeState.RIDING)
    (hd : s.isDevMode = false) (hc : s.connectedDevice = true)
    (hcs : s.connectionState = ConnState.connected) :
    completeRideEnd s true false =
      ({ s with sentLog := s.sentLog ++ [Cmd.stop, Cmd.deactivate],
                bikeState := BikeState.ACTIVATED, rideTime := 0, rideCost := 0,
                distance := 0, turboActive := false, turboPurchased := false },
        false) := by
  have hA : sendCommand s Cmd.stop true =
      ({ s with sentLog := s.sentLog ++ [Cmd.stop],
                bikeState := BikeState.ACTIVATED, rideTime := 0, rideCost := 0,
                distance := 0, turboActive := false, turboPurchased := false },
        SendOutcome.ok) := by
    rw [sendCommand_real_ok s Cmd.stop hd hc hcs,
      show Cmd.stop.target = BikeState.ACTIVATED from rfl,
      setBikeState_of_ne_nonriding _ _ (by simp [h]) (by simp)]
  have hA1 : (sendCommand s Cmd.stop true).1 =
      { s with sentLog := s.sentLog ++ [Cmd.stop],
               bikeState := BikeState.ACTIVATED, rideTime := 0, rideCost := 0,
               distance := 0, turboActive := false, turboPurchased := false } := by
    rw [hA]
  have hA2 : (sendCommand s Cmd.stop true).2 = SendOutcome.ok := by rw [hA]
  rw [completeRideEnd_eq, if_neg (by rw [hA2]; simp), hA1,
    sendCommand_real_fail
      { s with sentLog := s.sentLog ++ [Cmd.stop],
               bikeState := BikeState.ACTIVATED, rideTime := 0, rideCost := 0,
               distance := 0, turboActive := false, turboPurchased := false }
      Cmd.deactivate hd hc hcs,
    if_pos (by simp)]
  simp

/-- A fully acknowledged end-ride sequence: the summary is snapshotted from
the values at invocation, the connection is closed and the session record is
reset, the battery back at its base value. -/
theorem endRide_success (s : AppState) (h : s.bikeState = BikeState.RIDING)
    (hd : s.isDevMode = false) (hc : s.connectedDevice = true)
    (hcs : s.connectionState = ConnState.connected) :
    completeRideEnd s true true =
      ({ connectionState := ConnState.disconnected, connectedDevice := false,
         isDevMode := false, bikeState := BikeState.INACTIVE, rideTime := 0,
         rideCost := 0, distance := 0, batteryLevel := initialBattery,
         turboActive := false, turboPurchased := false,
         rideSummaryData := some ⟨s.rideTime, s.distance, s.rideCost⟩,
         sentLog := s.sentLog ++ [Cmd.stop, Cmd.deactivate] }, true) := by
  have hA : sendCommand s Cmd.stop true =
      ({ s with sentLog := s.sentLog ++ [Cmd.stop],
                bikeState := BikeState.ACTIVATED, rideTime := 0, rideCost := 0,
                distance := 0, turboActive := false, turboPurchased := false },
        SendOutcome.ok) := by
    rw [sendCommand_real_ok s Cmd.stop hd hc hcs,
      show Cmd.stop.target = BikeState.ACTIVATED from rfl,
      setBikeState_of_ne_nonriding _ _ (by simp [h]) (by simp)]
  have hA1 : (sendCommand s Cmd.stop true).1 =
      { s with sentLog := s.sentLog ++ [Cmd.stop],
               bikeState := BikeState.ACTIVATED, rideTime := 0, rideCost := 0,
               distance := 0, turboActive := false, turboPurchased := false } := by
    rw [hA]
  have hA2 : (sendCommand s Cmd.stop true).2 = SendOutcome.ok := by rw [hA]
  rw [completeRideEnd_eq, if_neg (by rw [hA2]; simp), hA1,
    sendCommand_real_ok
      { s with sentLog := s.sentLog ++ [Cmd.stop],
               bikeState := BikeState.ACTIVATED, rideTime := 0, rideCost := 0,
               distance := 0, turboActive := false, turboPurchased := false }
      Cmd.deactivate hd hc hcs,
    show Cmd.deactivate.target = BikeState.INACTIVE from rfl,
    setBikeState_of_ne_nonriding _ _ (by simp) (by simp),
    if_neg (by simp)]
  rw [setBikeState_self _ _ (by simp)]
  simp

/-- C2 (corrected): when a command of the end-ride sequence fails, the failure
is surfaced to the caller but the session is NOT forced to Disconnected and
NOT reset — a Stop write failure leaves the session exactly as it was (still
`Riding`, connection open, only the attempted write logged), a Deactivate
failure leaves it `ACTIVATED` with the connection open; only a fully
acknowledged sequence reaches `Disconnected` with the session reset. -/
theorem c2_endride_failure_no_reset (s : AppState)
    (h : s.bikeState = BikeState.RIDING) (hd : s.isDevMode = false)
    (hc : s.connectedDevice = true) (hcs : s.connectionState = ConnState.connected)
    (b : Bool) :
    ((completeRideEnd s false b).1 = { s with sentLog := s.sentLog ++ [Cmd.stop] } ∧
     (completeRideEnd s false b).1.bikeState = BikeState.RIDING ∧
     (completeRideEnd s false b).1.connectionState = ConnState.connected ∧
     (completeRideEnd s false b).2 = false) ∧
    ((completeRideEnd s true false).1.bikeState = BikeState.ACTIVATED ∧
     (completeRideEnd s true false).1.connectionState = ConnState.connected ∧
     (completeRideEnd s true false).2 = false) ∧
    ((completeRideEnd s true true).1.bikeState = BikeState.INACTIVE ∧
     (completeRideEnd s true true).1.connectionState = ConnState.disconnected ∧
     (completeRideEnd s true true).2 = true) := by
  rw [endRide_stopFail s b hd hc hcs, endRide_deactFail s h hd hc hcs,
    endRide_success s h hd hc hcs]
  exact ⟨⟨rfl, h, hcs, rfl⟩, ⟨rfl, hcs, rfl⟩, ⟨rfl, rfl, rfl⟩⟩

/-- Witness for C2 at the fresh riding session: the Stop write fails, the
session stays `Riding` and connected, and the failure is reported. -/
theorem c2_endride_failure_no_reset_witness :
    (completeRideEnd (runTrace startRide) false true).1.bikeState = BikeState.RIDING ∧
    (completeRideEnd (runTrace startRide) false true).1.connectionState =
      ConnState.connected ∧
    (completeRideEnd (runTrace startRide) false true).2 = false := by
  have h := c2_endride_failure_no_reset (runTrace startRide)
    (by rw [runTrace_startRide]) (by rw [runTrace_startRide])
    (by rw [runTrace_startRide]) (by rw [runTrace_startRide]) true
  exact ⟨h.1.2.1, h.1.2.2.1, h.1.2.2.2⟩

/-- C2 counterexample: from the riding session, `completeRideEnd` with a
failing Stop write reports the error but leaves the session `Riding` with the
connection open — not `Disconnected` with the record reset as claimed. -/
theorem c2_stop_failure_counterexample :
    (completeRideEnd (runTrace startRide) false true).2 = false ∧
    (completeRideEnd (runTrace startRide) false true).1.bikeState = BikeState.RIDING ∧
    (completeRideEnd (runTrace startRide) false true).1.connectionState ≠
      ConnState.disconnected ∧
    (completeRideEnd (runTrace startRide) false true).1.rideTime =
      (runTrace startRide).rideTime := by
  rw [endRide_stopFail (runTrace startRide) true (by rw [runTrace_startRide])
    (by rw [runTrace_startRide]) (by rw [runTrace_startRide])]
  refine ⟨rfl, ?_, ?_, rfl⟩
  · rw [show ({ runTrace startRide with
      sentLog := (runTrace startRide).sentLog ++ [Cmd.stop] } : AppState).bikeState =
      (runTrace startRide).bikeState from rfl, runTrace_startRide]
  · rw [show ({ runTrace startRide with
      sentLog := (runTrace startRide).sentLog ++ [Cmd.stop] } : AppState).connectionState =
      (runTrace startRide).connectionState from rfl, runTrace_startRide]
    simp

/-! ### Link loss -/

/-- The effect of a `LinkLost` notification on a riding real-device session:
disconnect, bike inactive, and — because the ride-timer effect reacts to the
state change — time, cost and distance zeroed; the battery level and the
(previous) summary are left as they were. -/
theorem linkLost_resets (s : AppState) (h : s.bikeState = BikeState.RIDING)
    (hc : s.connectedDevice = true) (hd : s.isDevMode = false) :
    step s Event.linkLost =
      { s with connectionState := ConnState.disconnected, connectedDevice := false,
               bikeState := BikeState.INACTIVE, rideTime := 0, rideCost := 0,
               distance := 0, turboActive := false, turboPurchased := false } := by
  have hstep : step s Event.linkLost =
      setBikeState { s with connectionState := ConnState.disconnected,
                            connectedDevice := false } BikeState.INACTIVE := by
    simp [step, onDeviceDisconnected, hc, hd]
  rw [hstep, setBikeState_of_ne_nonriding _ _ (by simp [h]) (by simp)]

/-- C3 (corrected): a `LinkLost` notification arriving while `Riding` forces
the session to Disconnected/Inactive and stops telemetry accumulation; but the
accrued cost (and time and distance) at drop time is immediately reset to zero
by the ride-timer effect — it is discarded, not retained as the last known
good value.  Only the battery level keeps its last value, and no ride summary
is produced. -/
theorem c3_linklost_discards_cost (s : AppState)
    (h : s.bikeState = BikeState.RIDING) (hc : s.connectedDevice = true)
    (hd : s.isDevMode = false) :
    (step s Event.linkLost).bikeState = BikeState.INACTIVE ∧
    (step s Event.linkLost).connectionState = ConnState.disconnected ∧
    (step s Event.linkLost).rideCost = 0 ∧
    (step s Event.linkLost).rideTime = 0 ∧
    (step s Event.linkLost).distance = 0 ∧
    (step s Event.linkLost).batteryLevel = s.batteryLevel ∧
    (step s Event.linkLost).rideSummaryData = s.rideSummaryData := by
  rw [linkLost_resets s h hc hd]
  exact ⟨rfl, rfl, rfl, rfl, rfl, rfl, rfl⟩

/-- Witness for C3 at the fresh riding session. -/
theorem c3_linklost_discards_cost_witness :
    (step (runTrace startRide) Event.linkLost).bikeState = BikeState.INACTIVE ∧
    (step (runTrace startRide) Event.linkLost).connectionState =
      ConnState.disconnected ∧
    (step (runTrace startRide) Event.linkLost).rideCost = 0 := by
  have h := c3_linklost_discards_cost (runTrace startRide)
    (by rw [runTrace_startRide]) (by rw [runTrace_startRide])
    (by rw [runTrace_startRide])
  exact ⟨h.1, h.2.1, h.2.2.1⟩

/-- C3 counterexample: after 60 ticks the accrued cost is `1.15`; the link
drop resets it to `0` instead of halting it at that last value. -/
theorem c3_cost_discarded_counterexample :
    (ticks (runTrace startRide) 60).rideCost = 23/20 ∧
    (step (ticks (runTrace startRide) 60) Event.linkLost).bikeState =
      BikeState.INACTIVE ∧
    (step (ticks (runTrace startRide) 60) Event.linkLost).rideCost = 0 ∧
    (step (ticks (runTrace startRide) 60) Event.linkLost).rideCost ≠ 23/20 := by
  have hr : (runTrace startRide).bikeState = BikeState.RIDING := by
    rw [runTrace_startRide]
  have hcost : (ticks (runTrace startRide) 60).rideCost = 23/20 := by
    rw [ticks_rideCost (runTrace startRide) hr 60 (by norm_num), runTrace_startRide]
    norm_num [unlockCost, perMinuteRate]
  have hlink := linkLost_resets (ticks (runTrace startRide) 60)
    (by rw [ticks_bikeState]; exact hr)
    (by rw [ticks_connectedDevice, runTrace_startRide])
    (by rw [ticks_isDevMode, runTrace_startRide])
  rw [hlink]
  exact ⟨hcost, rfl, rfl, by norm_num⟩

/-! ### Entering a new riding span -/

theorem sendCommand_real_fail1 (s : AppState) (c : Cmd) (hd : s.isDevMode = false)
    (hc : s.connectedDevice = true) (hcs : s.connectionState = ConnState.connected) :
    (sendCommand s c false).1 = { s with sentLog := s.sentLog ++ [c] } := by
  rw [sendCommand_real_fail s c hd hc hcs]

theorem sendCommand_real_fail2 (s : AppState) (c : Cmd) (hd : s.isDevMode = false)
    (hc : s.connectedDevice = true) (hcs : s.connectionState = ConnState.connected) :
    (sendCommand s c false).2 = SendOutcome.writeFailedErr := by
  rw [sendCommand_real_fail s c hd hc hcs]

theorem sendCommand_real_ok1 (s : AppState) (c : Cmd) (hd : s.isDevMode = false)
    (hc : s.connectedDevice = true) (hcs : s.connectionState = ConnState.connected) :
    (sendCommand s c true).1 =
      setBikeState { s with sentLog := s.sentLog ++ [c] } c.target := by
  rw [sendCommand_real_ok s c hd hc hcs]

theorem sendCommand_real_ok2 (s : AppState) (c : Cmd) (hd : s.isDevMode = false)
    (hc : s.connectedDevice = true) (hcs : s.connectionState = ConnState.connected) :
    (sendCommand s c true).2 = SendOutcome.ok := by
  rw [sendCommand_real_ok s c hd hc hcs]

theorem connectDev_eq (s : AppState) :
    connectDev s =
      setBikeState (setBikeState
        { s with connectionState := ConnState.connected,
                 connectedDevice := true,
                 isDevMode := true }
        BikeState.ACTIVATED) BikeState.RIDING := by
  simp [connectDev, sendCommand, setBikeState_isDevMode, Cmd.target]

theorem connectReal_false_eq (s : AppState) (a st : Bool) :
    connectReal s false a st =
      { s with connectionState := ConnState.disconnected,
               connectedDevice := false,
               isDevMode := false } := by
  simp [connectReal]

theorem connectReal_true_eq (s : AppState) (a st : Bool) :
    connectReal s true a st =
      (if (sendCommand
            { s with connectionState := ConnState.connected,
                     connectedDevice := true,
                     isDevMode := false } Cmd.activate a).2 = SendOutcome.ok then
        (sendCommand (sendCommand
          { s with connectionState := ConnState.connected,
                   connectedDevice := true,
                   isDevMode := false } Cmd.activate a).1 Cmd.start st).1
      else
        (sendCommand
          { s with connectionState := ConnState.connected,
                   connectedDevice := true,
                   isDevMode := false } Cmd.activate a).1) := by
  simp [connectReal]

/-- However a session enters a new riding span, the span starts with the
telemetry accumulators and elapsed time zeroed, the turbo flags cleared and no
summary present, while the battery level is simply carried over from before
the span (it is not re-based). -/
theorem step_into_riding (s : AppState) (e : Event) (hs : GoodState s)
    (hpre : s.bikeState ≠ BikeState.RIDING)
    (hpost : (step s e).bikeState = BikeState.RIDING) :
    (step s e).rideTime = 0 ∧ (step s e).rideCost = 0 ∧
    (step s e).distance = 0 ∧ (step s e).turboActive = false ∧
    (step s e).turboPurchased = false ∧ (step s e).rideSummaryData = none ∧
    (step s e).batteryLevel = s.batteryLevel := by
  obtain ⟨ht0, hc0, hd0, ha0, hp0⟩ := hs.2.1 hpre
  cases e with
  | tick =>
      exfalso
      apply hpre
      rw [show step s Event.tick = tick s from rfl, tick_bikeState] at hpost
      exact hpost
  | buyTurbo =>
      simp only [step, if_neg hpre] at hpost
      exact absurd hpost hpre
  | endRide a b =>
      simp only [step, if_neg hpre] at hpost
      exact absurd hpost hpre
  | linkLost =>
      simp only [step] at hpost ⊢
      by_cases hcond : (s.connectedDevice && !s.isDevMode) = true
      · rw [if_pos hcond] at hpost
        rw [show (onDeviceDisconnected s).bikeState = BikeState.INACTIVE from
          setBikeState_bikeState _ _] at hpost
        exact BikeState.noConfusion hpost
      · rw [if_neg hcond] at hpost
        exact absurd hpost hpre
  | connectDev =>
      have hstep : step s Event.connectDev = connectDev s := by
        simp only [step, if_neg hpre]
      rw [hstep, connectDev_eq]
      by_cases hact : s.bikeState = BikeState.ACTIVATED
      · rw [setBikeState_self
            { s with connectionState := ConnState.connected,
                     connectedDevice := true,
                     isDevMode := true } BikeState.ACTIVATED hact,
          setBikeState_of_ne_riding
            { s with connectionState := ConnState.connected,
                     connectedDevice := true,
                     isDevMode := true } hpre]
        exact ⟨ht0, hc0, hd0, rfl, rfl, rfl, rfl⟩
      · rw [setBikeState_of_ne_nonriding
            { s with connectionState := ConnState.connected,
                     connectedDevice := true,
                     isDevMode := true } BikeState.ACTIVATED hact (by simp),
          setBikeState_of_ne_riding
            { s with connectionState := ConnState.connected,
                     connectedDevice := true,
                     isDevMode := true, bikeState := BikeState.ACTIVATED,
                     rideTime := 0, rideCost := 0, distance := 0,
                     turboActive := false,
                     turboPurchased := false } (by simp)]
        exact ⟨rfl, rfl, rfl, rfl, rfl, rfl, rfl⟩
  | connectReal c a st =>
      have hstep : step s (Event.connectReal c a st) = connectReal s c a st := by
        simp only [step, if_neg hpre]
      rw [hstep] at hpost ⊢
      cases c
      · rw [connectReal_false_eq] at hpost
        exact absurd hpost hpre
      · rw [connectReal_true_eq] at hpost ⊢
        cases a
        · rw [sendCommand_real_fail2
              { s with connectionState := ConnState.connected,
                       connectedDevice := true,
                       isDevMode := false } Cmd.activate rfl rfl rfl,
            if_neg (by simp),
            sendCommand_real_fail1
              { s with connectionState := ConnState.connected,
                       connectedDevice := true,
                       isDevMode := false } Cmd.activate rfl rfl rfl] at hpost
          exact absurd hpost hpre
        · rw [sendCommand_real_ok2
              { s with connectionState := ConnState.connected,
                       connectedDevice := true,
                       isDevMode := false } Cmd.activate rfl rfl rfl,
            if_pos rfl,
            sendCommand_real_ok1
              { s with connectionState := ConnState.connected,
                       connectedDevice := true,
                       isDevMode := false } Cmd.activate rfl rfl rfl,
            show Cmd.activate.target = BikeState.ACTIVATED from rfl] at hpost ⊢
          by_cases hact : s.bikeState = BikeState.ACTIVATED
          · rw [setBikeState_self
                { s with connectionState := ConnState.connected,
                         connectedDevice := true,
                         isDevMode := false,
                         sentLog := s.sentLog ++ [Cmd.activate] }
                BikeState.ACTIVATED hact] at hpost ⊢
            cases st
            · rw [sendCommand_real_fail1
                  { s with connectionState := ConnState.connected,
                           connectedDevice := true,
                           isDevMode := false,
                           sentLog := s.sentLog ++ [Cmd.activate] }
                  Cmd.start rfl rfl rfl] at hpost
              exact absurd hpost hpre
            · rw [sendCommand_real_ok1
                  { s with connectionState := ConnState.connected,
                           connectedDevice := true,
                           isDevMode := false,
                           sentLog := s.sentLog ++ [Cmd.activate] }
                  Cmd.start rfl rfl rfl,
                show Cmd.start.target = BikeState.RIDING from rfl,
                setBikeState_of_ne_riding
                  { s with connectionState := ConnState.connected,
                           connectedDevice := true,
                           isDevMode := false,
                           sentLog := s.sentLog ++ [Cmd.activate] ++ [Cmd.start] }
                  hpre]
              exact ⟨ht0, hc0, hd0, rfl, rfl, rfl, rfl⟩
          · rw [setBikeState_of_ne_nonriding
                { s with connectionState := ConnState.connected,
                         connectedDevice := true,
                         isDevMode := false,
                         sentLog := s.sentLog ++ [Cmd.activate] }
                BikeState.ACTIVATED hact (by simp)] at hpost ⊢
            cases st
            · rw [sendCommand_real_fail1
                  { s with connectionState := ConnState.connected,
                           connectedDevice := true,
                           isDevMode := false,
                           bikeState := BikeState.ACTIVATED, rideTime := 0,
                           rideCost := 0, distance := 0, turboActive := false,
                           turboPurchased := false,
                           sentLog := s.sentLog ++ [Cmd.activate] }
                  Cmd.start rfl rfl rfl] at hpost
              exact BikeState.noConfusion hpost
            · rw [sendCommand_real_ok1
                  { s with connectionState := ConnState.connected,
                           connectedDevice := true,
                           isDevMode := false,
                           bikeState := BikeState.ACTIVATED, rideTime := 0,
                           rideCost := 0, distance := 0, turboActive := false,
                           turboPurchased := false,
                           sentLog := s.sentLog ++ [Cmd.activate] }
                  Cmd.start rfl rfl rfl,
                show Cmd.start.target = BikeState.RIDING from rfl,
                setBikeState_of_ne_riding
                  { s with connectionState := ConnState.connected,
                           connectedDevice := true,
                           isDevMode := false,
                           bikeState := BikeState.ACTIVATED, rideTime := 0,
                           rideCost := 0, distance := 0, turboActive := false,
                           turboPurchased := false,
                           sentLog := s.sentLog ++ [Cmd.activate] ++ [Cmd.start] }
                  (by simp)]
              exact ⟨rfl, rfl, rfl, rfl, rfl, rfl, rfl⟩

/-! ### C4: what a new riding span starts from -/

/-- C4 (corrected): whenever a reachable session enters a new `Riding` span —
by whatever event — the cost, distance, elapsed time, both turbo flags and the
summary snapshot are at their base values regardless of what a prior ride left
behind; the battery level however is carried over unchanged into the span (it
is reset to 85 only by a normal end-ride), so a span that follows an
involuntary disconnect starts from the depleted level. -/
theorem c4_new_span_base_values (tr : List Event) (e : Event)
    (hpre : (runTrace tr).bikeState ≠ BikeState.RIDING)
    (hpost : (step (runTrace tr) e).bikeState = BikeState.RIDING) :
    (step (runTrace tr) e).rideTime = 0 ∧
    (step (runTrace tr) e).rideCost = 0 ∧
    (step (runTrace tr) e).distance = 0 ∧
    (step (runTrace tr) e).turboActive = false ∧
    (step (runTrace tr) e).turboPurchased = false ∧
    (step (runTrace tr) e).rideSummaryData = none ∧
    (step (runTrace tr) e).batteryLevel = (runTrace tr).batteryLevel :=
  step_into_riding (runTrace tr) e (good_runTrace tr) hpre hpost

/-- Witness for C4: the first dev-bike connection of a session enters a riding
span with zeroed accumulators and the battery carried over. -/
theorem c4_new_span_base_values_witness :
    (step (runTrace []) Event.connectDev).bikeState = BikeState.RIDING ∧
    (step (runTrace []) Event.connectDev).rideCost = 0 ∧
    (step (runTrace []) Event.connectDev).batteryLevel =
      (runTrace []).batteryLevel := by
  have hpre : (runTrace []).bikeState ≠ BikeState.RIDING := by
    rw [show runTrace [] = initState from rfl]
    simp [initState]
  have hpost : (step (runTrace []) Event.connectDev).bikeState = BikeState.RIDING := by
    have hstep : step initState Event.connectDev = connectDev initState := by
      simp only [step]
      rw [if_neg (by simp [initState])]
    rw [show runTrace [] = initState from rfl, hstep, connectDev_eq,
      setBikeState_bikeState]
  have h := c4_new_span_base_values [] Event.connectDev hpre hpost
  exact ⟨hpost, h.2.1, h.2.2.2.2.2.2⟩

theorem step_connectReal_of_inactive (s : AppState)
    (h : s.bikeState = BikeState.INACTIVE) (c a st : Bool) :
    step s (Event.connectReal c a st) = connectReal s c a st := by
  simp [step, h]

/-- The session state after riding for 60 seconds, losing the link and
immediately reconnecting into a second riding span. -/
def spanAfterDrop : AppState :=
  step (step (ticks (runTrace startRide) 60) Event.linkLost)
    (Event.connectReal true true true)

set_option maxRecDepth 4000 in
theorem spanAfterDrop_fields :
    spanAfterDrop.bikeState = BikeState.RIDING ∧
    spanAfterDrop.rideTime = 0 ∧ spanAfterDrop.rideCost = 0 ∧
    spanAfterDrop.distance = 0 ∧ spanAfterDrop.turboPurchased = false ∧
    spanAfterDrop.batteryLevel = 82 := by
  have hr : (runTrace startRide).bikeState = BikeState.RIDING := by
    rw [runTrace_startRide]
  have hbat : (ticks (runTrace startRide) 60).batteryLevel = 82 := by
    rw [ticks_batteryLevel (runTrace startRide) hr 60 (by norm_num),
      runTrace_startRide]
    norm_num [floorZero, initialBattery, batteryDrainPerSecond]
  have hlink := linkLost_resets (ticks (runTrace startRide) 60)
    (by rw [ticks_bikeState]; exact hr)
    (by rw [ticks_connectedDevice, runTrace_startRide])
    (by rw [ticks_isDevMode, runTrace_startRide])
  unfold spanAfterDrop
  rw [hlink,
    step_connectReal_of_inactive
      { ticks (runTrace startRide) 60 with
        connectionState := ConnState.disconnected, connectedDevice := false,
        bikeState := BikeState.INACTIVE, rideTime := 0, rideCost := 0,
        distance := 0, turboActive := false, turboPurchased := false }
      rfl true true true,
    connectReal_from_inactive
      { ticks (runTrace startRide) 60 with
        connectionState := ConnState.disconnected, connectedDevice := false,
        bikeState := BikeState.INACTIVE, rideTime := 0, rideCost := 0,
        distance := 0, turboActive := false, turboPurchased := false }
      rfl]
  exact ⟨rfl, rfl, rfl, rfl, rfl, hbat⟩

/-- C4 counterexample: a riding span that begins right after a mid-ride link
drop starts with the battery still at `82`, not reset to the base value `85`
that the claim requires. -/
theorem c4_battery_not_rebased_counterexample :
    spanAfterDrop.bikeState = BikeState.RIDING ∧
    spanAfterDrop.rideTime = 0 ∧ spanAfterDrop.rideCost = 0 ∧
    spanAfterDrop.batteryLevel = 82 ∧
    spanAfterDrop.batteryLevel ≠ initialBattery := by
  obtain ⟨h1, h2, h3, _, _, h6⟩ := spanAfterDrop_fields
  refine ⟨h1, h2, h3, h6, ?_⟩
  rw [h6]
  norm_num [initialBattery]

/-! ### C5, C6: the billing and telemetry formulas -/

/-- C5 (corrected): after every whole elapsed second `t ≥ 1` of a riding span
the accumulated cost equals `1.00 + (t/60)·0.15`, plus `1.00` whenever the
turbo add-on is purchased (covering a mid-span purchase by applying the
theorem from the post-purchase state, whose `rideTime` continues the span); at
`t = 0`, before the first timer tick fires, the displayed cost is `0`, not the
unlock fee. -/
theorem c5_cost_formula (s : AppState) (n : ℕ)
    (h : s.bikeState = BikeState.RIDING) (hn : 1 ≤ n) :
    (ticks s n).rideCost =
      unlockCost + (((s.rideTime + n : ℕ) : ℚ) / 60) * perMinuteRate +
        (if s.turboPurchased then turboCost else 0) :=
  ticks_rideCost s h n hn

/-- Witness for C5: sixty ticks into a fresh span with no add-on the cost is
`1.00 + (60/60)·0.15 = 1.15`. -/
theorem c5_cost_formula_witness :
    (ticks (runTrace startRide) 60).rideCost = 23/20 := by
  rw [c5_cost_formula (runTrace startRide) 60 (by rw [runTrace_startRide])
    (by norm_num), runTrace_startRide]
  norm_num [unlockCost, perMinuteRate]

/-- C5 counterexample: at `t = 0` of a fresh riding span the accumulated cost
reads `0`, not the `1.00 + (0/60)·0.15 = 1.00` required by the claim at
`t ≥ 0`. -/
theorem c5_cost_at_zero_counterexample :
    (runTrace startRide).bikeState = BikeState.RIDING ∧
    (runTrace startRide).rideTime = 0 ∧
    (runTrace startRide).rideCost = 0 ∧
    (runTrace startRide).rideCost ≠
      unlockCost + (((0 : ℕ) : ℚ) / 60) * perMinuteRate := by
  rw [runTrace_startRide]
  refine ⟨rfl, rfl, rfl, ?_⟩
  norm_num [unlockCost, perMinuteRate]

/-- C6 (corrected): over any `n ≥ 1` ticks of a riding span the distance grows
by exactly `n · 0.00278` miles from its span-start value (always `0`, so after
60 ticks `0.1668`), and the battery equals `max 0 (b₀ − 0.05·n)` where `b₀` is
the level at span start; `b₀` is `85` for a span begun at app start or after a
normal end-ride, but a span following an involuntary disconnect inherits the
prior ride's depleted level, so the claim's `max 0 (85 − 0.05·t)` does not
hold for such spans. -/
theorem c6_telemetry_formulas (s : AppState) (n : ℕ)
    (h : s.bikeState = BikeState.RIDING) (hn : 1 ≤ n) :
    (ticks s n).distance = s.distance + n * distancePerSecond ∧
    (ticks s n).batteryLevel = max 0 (s.batteryLevel - n * batteryDrainPerSecond) := by
  refine ⟨ticks_distance s h n, ?_⟩
  rw [ticks_batteryLevel s h n hn, floorZero_eq_max]

/-- Witness for C6: sixty ticks into the fresh span the distance is
`60 · 0.00278 = 0.1668` miles and the battery is `max 0 (85 − 3) = 82`. -/
theorem c6_telemetry_formulas_witness :
    (ticks (runTrace startRide) 60).distance = 417/2500 ∧
    (ticks (runTrace startRide) 60).batteryLevel = 82 := by
  obtain ⟨h1, h2⟩ := c6_telemetry_formulas (runTrace startRide) 60
    (by rw [runTrace_startRide]) (by norm_num)
  constructor
  · rw [h1, runTrace_startRide]
    norm_num [distancePerSecond]
  · rw [h2, runTrace_startRide]
    rw [show initialBattery - (60 : ℕ) * batteryDrainPerSecond = 82 from by
      norm_num [initialBattery, batteryDrainPerSecond]]
    norm_num

/-- C6 counterexample: one tick into the riding span that follows an
involuntary disconnect the battery is `81.95`, not the
`max 0 (85 − 0.05·1) = 84.95` of the claim's formula. -/
theorem c6_battery_base_counterexample :
    spanAfterDrop.bikeState = BikeState.RIDING ∧
    (ticks spanAfterDrop 1).batteryLevel = 1639/20 ∧
    (ticks spanAfterDrop 1).batteryLevel ≠
      max 0 (85 - (1 : ℕ) * batteryDrainPerSecond) := by
  obtain ⟨h1, _, _, _, _, h6⟩ := spanAfterDrop_fields
  have hb := ticks_batteryLevel spanAfterDrop h1 1 le_rfl
  have hv : floorZero ((82 : ℚ) - (1 : ℕ) * batteryDrainPerSecond) = 1639/20 := by
    norm_num [floorZero, batteryDrainPerSecond]
  have hm : max (0 : ℚ) (85 - (1 : ℕ) * batteryDrainPerSecond) = 1699/20 := by
    rw [max_eq_right (by norm_num [batteryDrainPerSecond])]
    norm_num [batteryDrainPerSecond]
  refine ⟨h1, ?_, ?_⟩
  · rw [hb, h6]
    exact hv
  · rw [hb, h6, hv, hm]
    norm_num

/-! ### C7: monotonicity through a riding span -/

theorem sendCommand_not_ok (s : AppState) (c : Cmd) (w : Bool)
    (h : (sendCommand s c w).2 ≠ SendOutcome.ok) :
    (sendCommand s c w).1 = s ∨
    (sendCommand s c w).1 = { s with sentLog := s.sentLog ++ [c] } := by
  unfold sendCommand at h ⊢
  by_cases hdev : s.isDevMode = true
  · rw [if_pos hdev] at h
    exact absurd rfl h
  · rw [if_neg hdev] at h ⊢
    by_cases hnc : s.connectedDevice = false ∨ s.connectionState ≠ ConnState.connected
    · rw [if_pos hnc]
      exact Or.inl rfl
    · rw [if_neg hnc] at h ⊢
      by_cases hw : w = true
      · rw [if_pos hw] at h
        exact absurd rfl h
      · rw [if_neg hw]
        exact Or.inr rfl

theorem sendCommand_ok_bikeState (s : AppState) (c : Cmd) (w : Bool)
    (h : (sendCommand s c w).2 = SendOutcome.ok) :
    (sendCommand s c w).1.bikeState = c.target := by
  unfold sendCommand at h ⊢
  by_cases hdev : s.isDevMode = true
  · rw [if_pos hdev]
    exact setBikeState_bikeState _ _
  · rw [if_neg hdev] at h ⊢
    by_cases hnc : s.connectedDevice = false ∨ s.connectionState ≠ ConnState.connected
    · rw [if_pos hnc] at h
      exact SendOutcome.noConfusion h
    · rw [if_neg hnc] at h ⊢
      by_cases hw : w = true
      · rw [if_pos hw]
        exact setBikeState_bikeState _ _
      · rw [if_neg hw] at h
        exact SendOutcome.noConfusion h

/-- If an end-ride sequence leaves the bike still `RIDING`, nothing happened
to the session beyond possibly logging the failed Stop write. -/
theorem completeRideEnd_riding_cases (s : AppState) (a b : Bool)
    (hpost : (completeRideEnd s a b).1.bikeState = BikeState.RIDING) :
    (completeRideEnd s a b).1 = s ∨
    (completeRideEnd s a b).1 = { s with sentLog := s.sentLog ++ [Cmd.stop] } := by
  rw [completeRideEnd_eq] at hpost ⊢
  by_cases hf : (sendCommand s Cmd.stop a).2 ≠ SendOutcome.ok
  · rw [if_pos hf] at hpost ⊢
    exact sendCommand_not_ok s Cmd.stop a hf
  · push_neg at hf
    rw [if_neg (by simp [hf])] at hpost ⊢
    exfalso
    have hb1 : (sendCommand s Cmd.stop a).1.bikeState = BikeState.ACTIVATED :=
      sendCommand_ok_bikeState s Cmd.stop a hf
    by_cases hg : (sendCommand (sendCommand s Cmd.stop a).1 Cmd.deactivate b).2 ≠
        SendOutcome.ok
    · rw [if_pos hg] at hpost
      rcases sendCommand_not_ok _ Cmd.deactivate b hg with he | he <;>
        rw [he] at hpost
      · rw [hb1] at hpost
        exact BikeState.noConfusion hpost
      · rw [show ({ (sendCommand s Cmd.stop a).1 with
            sentLog := (sendCommand s Cmd.stop a).1.sentLog ++ [Cmd.deactivate] } :
            AppState).bikeState = (sendCommand s Cmd.stop a).1.bikeState from rfl,
          hb1] at hpost
        exact BikeState.noConfusion hpost
    · push_neg at hg
      rw [if_neg (by simp [hg])] at hpost
      rw [show ({ setBikeState
          { (sendCommand (sendCommand s Cmd.stop a).1 Cmd.deactivate b).1 with
            rideSummaryData := some ⟨s.rideTime, s.distance, s.rideCost⟩,
            connectedDevice := false, connectionState := ConnState.disconnected,
            isDevMode := false } BikeState.INACTIVE with
          batteryLevel := initialBattery, turboActive := false,
          turboPurchased := false } : AppState).bikeState = BikeState.INACTIVE from
        setBikeState_bikeState _ _] at hpost
      exact BikeState.noConfusion hpost

theorem step_riding_monotone (s : AppState) (e : Event) (hs : GoodState s)
    (h1 : s.bikeState = BikeState.RIDING)
    (h2 : (step s e).bikeState = BikeState.RIDING) :
    s.rideCost ≤ (step s e).rideCost ∧ s.distance ≤ (step s e).distance ∧
    (step s e).batteryLevel ≤ s.batteryLevel := by
  cases e with
  | connectDev =>
      simp only [step, if_pos h1]
      exact ⟨le_rfl, le_rfl, le_rfl⟩
  | connectReal c a st =>
      simp only [step, if_pos h1]
      exact ⟨le_rfl, le_rfl, le_rfl⟩
  | tick =>
      have hb0 : 0 ≤ s.batteryLevel := hs.1
      have hcb := (hs.2.2 h1).2
      rw [show step s Event.tick = tick s from rfl, tick_of_riding s h1]
      refine ⟨hcb, ?_, ?_⟩
      · simp only
        norm_num [distancePerSecond]
      · simp only
        unfold floorZero
        split
        · exact hb0
        · norm_num [batteryDrainPerSecond]
  | buyTurbo =>
      simp only [step, if_pos h1]
      unfold handleBuyTurbo
      by_cases ha : s.turboActive = true
      · rw [if_pos ha]
        exact ⟨le_rfl, le_rfl, le_rfl⟩
      · rw [if_neg ha, if_neg (by simp [h1])]
        refine ⟨?_, le_rfl, le_rfl⟩
        simp only
        norm_num [turboCost]
  | endRide a b =>
      simp only [step, if_pos h1] at h2 ⊢
      rcases completeRideEnd_riding_cases s a b h2 with he | he <;> rw [he]
      · exact ⟨le_rfl, le_rfl, le_rfl⟩
      · exact ⟨le_rfl, le_rfl, le_rfl⟩
  | linkLost =>
      simp only [step] at h2 ⊢
      by_cases hcond : (s.connectedDevice && !s.isDevMode) = true
      · rw [if_pos hcond] at h2
        rw [show (onDeviceDisconnected s).bikeState = BikeState.INACTIVE from
          setBikeState_bikeState _ _] at h2
        exact BikeState.noConfusion h2
      · rw [if_neg hcond]
        exact ⟨le_rfl, le_rfl, le_rfl⟩

/-- C7: along every execution, while a step stays within a riding span —
including a mid-ride turbo purchase — the accumulated cost and distance never
decrease and the battery never increases; and the battery is never negative in
any reachable state. -/
theorem c7_riding_monotonicity :
    (∀ tr : List Event, 0 ≤ (runTrace tr).batteryLevel) ∧
    (∀ (tr : List Event) (e : Event),
      (runTrace tr).bikeState = BikeState.RIDING →
      (step (runTrace tr) e).bikeState = BikeState.RIDING →
      (runTrace tr).rideCost ≤ (step (runTrace tr) e).rideCost ∧
      (runTrace tr).distance ≤ (step (runTrace tr) e).distance ∧
      (step (runTrace tr) e).batteryLevel ≤ (runTrace tr).batteryLevel) :=
  ⟨fun tr => (good_runTrace tr).1,
   fun tr e hr1 hr2 => step_riding_monotone (runTrace tr) e (good_runTrace tr) hr1 hr2⟩

/-- Witness for C7 at the fresh riding session stepped by one timer tick. -/
theorem c7_riding_monotonicity_witness :
    (runTrace startRide).bikeState = BikeState.RIDING ∧
    (runTrace startRide).rideCost ≤ (step (runTrace startRide) Event.tick).rideCost ∧
    0 ≤ (runTrace startRide).batteryLevel := by
  have h1 : (runTrace startRide).bikeState = BikeState.RIDING := by
    rw [runTrace_startRide]
  have h2 : (step (runTrace startRide) Event.tick).bikeState = BikeState.RIDING := by
    rw [show step (runTrace startRide) Event.tick = tick (runTrace startRide) from rfl,
      tick_bikeState]
    exact h1
  exact ⟨h1, (c7_riding_monotonicity.2 startRide Event.tick h1 h2).1,
    c7_riding_monotonicity.1 startRide⟩

/-! ### C8: the turbo add-on cannot be double-charged -/

theorem buyTurbo_of_riding (s : AppState) (h : s.bikeState = BikeState.RIDING)
    (ha : s.turboActive = false) :
    step s Event.buyTurbo =
      { s with rideCost := s.rideCost + turboCost, turboPurchased := true,
               turboActive := true } := by
  simp only [step, if_pos h]
  unfold handleBuyTurbo
  rw [if_neg (by simp [ha]), if_neg (by simp [h])]

theorem buyTurbo_active_noop (s : AppState) (h : s.bikeState = BikeState.RIDING)
    (ha : s.turboActive = true) :
    step s Event.buyTurbo = s := by
  simp only [step, if_pos h]
  unfold handleBuyTurbo
  rw [if_pos ha]

/-- C8: invoking the turbo purchase a second time while the add-on is already
active is a rejected no-op — `handleBuyTurbo` returns the state unchanged, so
cost and both flags are untouched — and hence the total turbo surcharge within
one ride is exactly `1.00`: buying, buying again and riding 60 ticks yields a
cost of `2.15`, not `3.15`. -/
theorem c8_turbo_single_charge :
    (∀ s : AppState, s.turboActive = true → handleBuyTurbo s = s) ∧
    step (step (runTrace startRide) Event.buyTurbo) Event.buyTurbo =
      step (runTrace startRide) Event.buyTurbo ∧
    (ticks (step (step (runTrace startRide) Event.buyTurbo) Event.buyTurbo)
      60).rideCost = 43/20 := by
  have hnoop : ∀ s : AppState, s.turboActive = true → handleBuyTurbo s = s := by
    intro s ha
    unfold handleBuyTurbo
    rw [if_pos ha]
  have h1 : (runTrace startRide).bikeState = BikeState.RIDING := by
    rw [runTrace_startRide]
  have ha : (runTrace startRide).turboActive = false := by
    rw [runTrace_startRide]
  have hb1 := buyTurbo_of_riding (runTrace startRide) h1 ha
  have hb2 : step (step (runTrace startRide) Event.buyTurbo) Event.buyTurbo =
      step (runTrace startRide) Event.buyTurbo := by
    rw [hb1]
    exact buyTurbo_active_noop _ h1 rfl
  have hbs : (step (runTrace startRide) Event.buyTurbo).bikeState =
      BikeState.RIDING := by
    rw [hb1]
    exact h1
  refine ⟨hnoop, hb2, ?_⟩
  rw [hb2, ticks_rideCost (step (runTrace startRide) Event.buyTurbo) hbs 60
    (by norm_num), hb1, runTrace_startRide]
  norm_num [unlockCost, perMinuteRate, turboCost]

/-- Witness for C8: the second purchase applied to the post-purchase state is
the identity. -/
theorem c8_turbo_single_charge_witness :
    handleBuyTurbo
      { runTrace startRide with
        rideCost := (runTrace startRide).rideCost + turboCost,
        turboPurchased := true, turboActive := true } =
      { runTrace startRide with
        rideCost := (runTrace startRide).rideCost + turboCost,
        turboPurchased := true, turboActive := true } :=
  c8_turbo_single_charge.1 _ rfl

end Lumo
